import Mathlib

/-!
Verification of the robust shared-mutex primitive of the `aos` layer of this
repository (`third_party/aos/common/mutex.h`) and its scoped guards
(`MutexLocker`, `IPCMutexLocker`, `IPCRecursiveMutexLocker`), against the
behaviour pinned down by the test suite in `src/muan/actions/drivetrain_action.cpp`
(the embedded `mutex_test.cc`).

The implementation files (`mutex.cc`, `aos_sync.c`) are not part of the
sources here; only their tests are.  The operational definitions below are
therefore modelled from the specification document, and every claim is
settled against this model.  Holder identities are natural numbers; liveness
of holders is an explicit predicate `alive : Nat → Bool` supplied by the
environment (the OS robust-list facility of the design).
-/

namespace AosMutex

/-- Modelled from the spec: the shared state word of a `Mutex`
(`third_party/aos/common/mutex.h`, not under `src/`).  It encodes either
`unlocked` or `locked-by <holder-id>`, where the holder id uniquely
identifies the holding thread/process. -/
inductive LockState where
  | unlocked : LockState
  | lockedBy (holder : Nat) : LockState
  deriving DecidableEq, Repr

/-- Modelled from the spec: the tri-state outcome type `Mutex::State` of
`TryLock()` — `kLocked`, `kLockFailed`, `kOwnerDied`. -/
inductive MState where
  | kLocked : MState
  | kLockFailed : MState
  | kOwnerDied : MState
  deriving DecidableEq, Repr

/-- Modelled from the spec: the outcome of a single `Lock()` call.  `Lock`
either acquires the mutex (reporting whether it had to recover from a dead
owner), blocks because a live other holder has it, or dies fatally with a
"multiple lock" diagnostic on self-relock.  There is no `LockFailed`-like
constructor: blocking retries until success. -/
inductive LockResult where
  | acquired (ownerDied : Bool) (m : LockState) : LockResult
  | blocked : LockResult
  | fatal (msg : String) : LockResult
  deriving DecidableEq, Repr

/-- Modelled from the spec: the outcome of `Unlock()` or of the `Mutex`
destructor: either the new state word, or a fatal abort diagnostic. -/
inductive UnlockResult where
  | ok (m : LockState) : UnlockResult
  | fatal (msg : String) : UnlockResult
  deriving DecidableEq, Repr

/-- Modelled from the spec: `Mutex::TryLock()` (`mutex.cc`, not under
`src/`).  Non-blocking: an atomic compare-and-swap from `unlocked` to
`locked-by self`.  If the word shows `locked-by x` with `x` still alive it
returns `kLockFailed` with no state change; if `x` is dead it atomically
claims ownership and returns `kOwnerDied`. -/
def tryLock (alive : Nat → Bool) (self : Nat) (m : LockState) :
    MState × LockState :=
  match m with
  | .unlocked => (.kLocked, .lockedBy self)
  | .lockedBy x =>
      if alive x then (.kLockFailed, .lockedBy x)
      else (.kOwnerDied, .lockedBy self)

/-- Modelled from the spec: `Mutex::Lock()` (`mutex.cc`, not under `src/`).
Blocks until the mutex becomes available or is found abandoned; its boolean
result signals "previous owner died".  Re-locking by the current holder is a
fatal "multiple lock" programming error (test `MutexDeathTest.RepeatLock`). -/
def lock (alive : Nat → Bool) (self : Nat) (m : LockState) : LockResult :=
  match m with
  | .unlocked => .acquired false (.lockedBy self)
  | .lockedBy x =>
      if x = self then .fatal "multiple lock"
      else if alive x then .blocked
      else .acquired true (.lockedBy self)

/-- Modelled from the spec: `Mutex::Unlock()` (`mutex.cc`, not under
`src/`).  Releases a mutex held by the calling thread; unlocking a mutex
not held by the caller — never locked, already unlocked, or held by someone
else — aborts fatally with a "multiple unlock" diagnostic. -/
def unlock (self : Nat) (m : LockState) : UnlockResult :=
  match m with
  | .unlocked => .fatal "multiple unlock"
  | .lockedBy x =>
      if x = self then .ok .unlocked
      else .fatal "multiple unlock"

/-- Modelled from the spec: the `Mutex` destructor (`mutex.cc`, not under
`src/`).  Destroying a mutex that is currently locked by anyone aborts
fatally with a "destroying locked mutex" diagnostic. -/
def destroy (m : LockState) : UnlockResult :=
  match m with
  | .unlocked => .ok .unlocked
  | .lockedBy _ => .fatal "destroying locked mutex"

/-- Modelled from the spec: outcome of constructing a `MutexLocker`
(`mutex.h`, not under `src/`): either the guard is in place (with the new
state word), or the construction blocks, or it aborts fatally. -/
inductive LockerResult where
  | ok (m : LockState) : LockerResult
  | blocked : LockerResult
  | fatal (msg : String) : LockerResult
  deriving DecidableEq, Repr

/-- Modelled from the spec: `MutexLocker` construction (`mutex.h`, not under
`src/`): calls `Lock()`; if the call reports an owner death the guard aborts
fatally with a diagnostic naming the mutex (test
`MutexLockerDeathTest.OwnerDied`). -/
def mutexLockerConstruct (alive : Nat → Bool) (self : Nat) (m : LockState) :
    LockerResult :=
  match lock alive self m with
  | .acquired true _ => .fatal "previous owner of mutex died"
  | .acquired false m2 => .ok m2
  | .blocked => .blocked
  | .fatal s => .fatal s

/-- Modelled from the spec: `MutexLocker` destruction (`mutex.h`, not under
`src/`): calls `Unlock()`. -/
def mutexLockerDestruct (self : Nat) (m : LockState) : UnlockResult :=
  unlock self m

/-- Modelled from the spec: the state an `IPCMutexLocker` guard carries — the
holder identity, the "did I observe OwnerDied on entry" flag, and the "has
the owner-died flag been read by the caller" flag checked at destruction. -/
structure IPCGuard where
  self : Nat
  ownerDied : Bool
  ownerDiedChecked : Bool
  deriving DecidableEq, Repr

/-- Modelled from the spec: outcome of constructing an `IPCMutexLocker`:
the guard record and the new state word, or blocking, or a fatal abort. -/
inductive IPCLockerResult where
  | ok (g : IPCGuard) (m : LockState) : IPCLockerResult
  | blocked : IPCLockerResult
  | fatal (msg : String) : IPCLockerResult
  deriving DecidableEq, Repr

/-- Modelled from the spec: `IPCMutexLocker` construction (`mutex.h`, not
under `src/`): calls `Lock()` and records whether the prior owner died, but
does not abort on owner death. -/
def ipcMutexLockerConstruct (alive : Nat → Bool) (self : Nat)
    (m : LockState) : IPCLockerResult :=
  match lock alive self m with
  | .acquired od m2 => .ok ⟨self, od, false⟩ m2
  | .blocked => .blocked
  | .fatal s => .fatal s

/-- Modelled from the spec: the `IPCMutexLocker::owner_died()` accessor:
returns the recorded flag and marks the obligation as discharged. -/
def ipcOwnerDied (g : IPCGuard) : Bool × IPCGuard :=
  (g.ownerDied, { g with ownerDiedChecked := true })

/-- Modelled from the spec: `IPCMutexLocker` destruction (`mutex.h`, not
under `src/`): if the guard is destroyed without the owner-died accessor
ever having been called, abort with the "nobody checked if the previous
owner of mutex died" diagnostic; otherwise release the mutex normally. -/
def ipcMutexLockerDestruct (g : IPCGuard) (m : LockState) : UnlockResult :=
  if g.ownerDiedChecked then unlock g.self m
  else .fatal "nobody checked if the previous owner of mutex died"

/-- Modelled from the spec: outcome of constructing an
`IPCRecursiveMutexLocker`: the guard record, the per-(holder, mutex)
recursion depth after the construction, and the state word; or blocking, or
a fatal abort. -/
inductive RecLockerResult where
  | ok (g : IPCGuard) (depth : Nat) (m : LockState) : RecLockerResult
  | blocked : RecLockerResult
  | fatal (msg : String) : RecLockerResult
  deriving DecidableEq, Repr

/-- Modelled from the spec: `IPCRecursiveMutexLocker` construction
(`mutex.h`, not under `src/`).  Depth 0 → 1 performs the real `Lock()` and
records owner-died status exactly as `IPCMutexLocker` does; depth N → N+1
for N ≥ 1 succeeds immediately without touching the underlying mutex
state. -/
def ipcRecursiveConstruct (alive : Nat → Bool) (self : Nat) (depth : Nat)
    (m : LockState) : RecLockerResult :=
  if depth = 0 then
    match lock alive self m with
    | .acquired od m2 => .ok ⟨self, od, false⟩ 1 m2
    | .blocked => .blocked
    | .fatal s => .fatal s
  else .ok ⟨self, false, false⟩ (depth + 1) m

/-- Modelled from the spec: outcome of destroying an
`IPCRecursiveMutexLocker`: the new depth and state word, or a fatal abort. -/
inductive RecUnlockResult where
  | ok (depth : Nat) (m : LockState) : RecUnlockResult
  | fatal (msg : String) : RecUnlockResult
  deriving DecidableEq, Repr

/-- Modelled from the spec: `IPCRecursiveMutexLocker` destruction
(`mutex.h`, not under `src/`): decrements the depth; only the outermost
guard's destruction (depth 1 → 0) actually calls `Unlock()`, and that
outermost guard carries the same mandatory owner-died-check obligation as
`IPCMutexLocker` — if its accessor was never called, destruction aborts
with the "nobody checked" diagnostic instead of unlocking.  Inner guards
(depth > 1) only decrement, with no check and no unlock. -/
def ipcRecursiveDestruct (g : IPCGuard) (depth : Nat) (m : LockState) :
    RecUnlockResult :=
  if depth = 1 then
    if g.ownerDiedChecked then
      match unlock g.self m with
      | .ok m2 => .ok 0 m2
      | .fatal s => .fatal s
    else .fatal "nobody checked if the previous owner of mutex died"
  else .ok (depth - 1) m

end AosMutex

namespace AosMutex

/-- C1: `Lock()` blocks until the mutex is acquired and returns a boolean
signalling owner death: on an unlocked mutex it acquires cleanly returning
`false`; on a mutex abandoned by a dead holder it recovers and returns
`true`; whenever it acquires, the result is `true` exactly when the previous
holder was dead; and it blocks (rather than report any `LockFailed`-like
outcome, which its result type does not even contain) exactly while a live
other holder has the mutex. -/
theorem lock_blocking_contract (alive : Nat → Bool) (self : Nat)
    (m : LockState) (hself : alive self = true) :
    (m = .unlocked → lock alive self m = .acquired false (.lockedBy self)) ∧
    (∀ x, m = .lockedBy x → alive x = false →
        lock alive self m = .acquired true (.lockedBy self)) ∧
    (∀ b m2, lock alive self m = .acquired b m2 →
        m2 = .lockedBy self ∧
        (b = true ↔ ∃ x, m = .lockedBy x ∧ alive x = false)) ∧
    (lock alive self m = .blocked ↔
        ∃ x, m = .lockedBy x ∧ x ≠ self ∧ alive x = true) := by
  cases m with
  | unlocked =>
      refine ⟨fun _ => rfl, by simp, ?_, by simp [lock]⟩
      intro b m2 h
      simp only [lock, LockResult.acquired.injEq] at h
      simp [← h.1, ← h.2]
  | lockedBy x =>
      by_cases hx : x = self
      · subst hx
        simp [lock, hself]
      · by_cases hax : alive x = true
        · simp [lock, hx, hax]
        · simp only [Bool.not_eq_true] at hax
          simp [lock, hx, hax]

/-- Witness for C1: with holder 2 dead and caller 1 alive, `Lock()` on the
abandoned mutex recovers it, reporting the owner death. -/
theorem lock_blocking_contract_witness :
    lock (fun n => decide ¬ n = 2) 1 (.lockedBy 2) =
      .acquired true (.lockedBy 1) :=
  (lock_blocking_contract (fun n => decide ¬ n = 2) 1 (.lockedBy 2)
    (by decide)).2.1 2 rfl (by decide)

/-- C2: on a mutex whose holder `x` died while holding it, `TryLock()` by a
live other party returns `kOwnerDied` and atomically transfers ownership to
the caller, whose later `Unlock()` then succeeds. -/
theorem tryLock_owner_died_recovers (alive : Nat → Bool) (self x : Nat)
    (hx : alive x = false) (hself : alive self = true) :
    x ≠ self ∧
    tryLock alive self (.lockedBy x) = (.kOwnerDied, .lockedBy self) ∧
    unlock self (.lockedBy self) = .ok .unlocked := by
  refine ⟨fun h => by simp [h, hself] at hx, ?_, by simp [unlock]⟩
  simp [tryLock, hx]

/-- Witness for C2: caller 1 recovers the mutex abandoned by dead holder 2
via `TryLock()` and can unlock it afterwards. -/
theorem tryLock_owner_died_recovers_witness :
    tryLock (fun n => decide ¬ n = 2) 1 (.lockedBy 2) =
      (.kOwnerDied, .lockedBy 1) :=
  (tryLock_owner_died_recovers (fun n => decide ¬ n = 2) 1 2 (by decide)
    (by decide)).2.1

/-- C3: on a fresh unlocked mutex, `TryLock()` by `a` returns `kLocked` and
leaves the mutex held by `a`; an immediately following `TryLock()` by any
contender `b` while `a` is alive returns `kLockFailed` and changes no state;
and after `a` unlocks, a subsequent `TryLock()` by any contender `c`
returns `kLocked` again. -/
theorem tryLock_unlock_lifecycle (alive : Nat → Bool) (a b c : Nat)
    (ha : alive a = true) :
    tryLock alive a .unlocked = (.kLocked, .lockedBy a) ∧
    tryLock alive b (.lockedBy a) = (.kLockFailed, .lockedBy a) ∧
    unlock a (.lockedBy a) = .ok .unlocked ∧
    tryLock alive c .unlocked = (.kLocked, .lockedBy c) := by
  exact ⟨rfl, by simp [tryLock, ha], by simp [unlock], rfl⟩

/-- Witness for C3: the lifecycle at holders 1, 2, 3 with everyone alive. -/
theorem tryLock_unlock_lifecycle_witness :
    tryLock (fun _ => true) 1 .unlocked = (.kLocked, .lockedBy 1) ∧
    tryLock (fun _ => true) 2 (.lockedBy 1) = (.kLockFailed, .lockedBy 1) ∧
    unlock 1 (.lockedBy 1) = .ok .unlocked ∧
    tryLock (fun _ => true) 3 .unlocked = (.kLocked, .lockedBy 3) :=
  tryLock_unlock_lifecycle (fun _ => true) 1 2 3 rfl

/-- C4: with holder `a` holding the mutex through an outer
`IPCRecursiveMutexLocker` (depth 1), a nested construction by `a` succeeds
immediately (no blocking) without changing the mutex word, moving the depth
to 2; during the nested region `TryLock()` by any other party `b` returns
`kLockFailed`; destruction of any guard at a depth above 1 only decrements
the depth without unlocking; the owner-died accessor discharges the
outermost guard's check obligation; only the outermost destruction
(depth 1, obligation discharged) unlocks, after which `TryLock()` by `b`
returns `kLocked`. -/
theorem recursive_locker_nesting (alive : Nat → Bool) (a b : Nat)
    (ha : alive a = true) :
    ipcRecursiveConstruct alive a 0 .unlocked =
      .ok ⟨a, false, false⟩ 1 (.lockedBy a) ∧
    ipcRecursiveConstruct alive a 1 (.lockedBy a) =
      .ok ⟨a, false, false⟩ 2 (.lockedBy a) ∧
    tryLock alive b (.lockedBy a) = (.kLockFailed, .lockedBy a) ∧
    (∀ g d, 1 < d →
        ipcRecursiveDestruct g d (.lockedBy a) = .ok (d - 1) (.lockedBy a)) ∧
    ipcOwnerDied ⟨a, false, false⟩ = (false, ⟨a, false, true⟩) ∧
    ipcRecursiveDestruct ⟨a, false, true⟩ 1 (.lockedBy a) =
      .ok 0 .unlocked ∧
    tryLock alive b .unlocked = (.kLocked, .lockedBy b) := by
  refine ⟨rfl, rfl, by simp [tryLock, ha], ?_, rfl,
    by simp [ipcRecursiveDestruct, unlock], rfl⟩
  intro g d hd
  have hd1 : d ≠ 1 := by omega
  simp [ipcRecursiveDestruct, hd1]

/-- Witness for C4: the nesting scenario at holders 1 and 2 — inner guard
destroyed from depth 2 without unlocking, then the outer guard (accessor
called) destroyed from depth 1, unlocking. -/
theorem recursive_locker_nesting_witness :
    ipcRecursiveConstruct (fun _ => true) 1 1 (.lockedBy 1) =
      .ok ⟨1, false, false⟩ 2 (.lockedBy 1) ∧
    ipcRecursiveDestruct ⟨1, false, false⟩ 2 (.lockedBy 1) =
      .ok 1 (.lockedBy 1) ∧
    ipcRecursiveDestruct ⟨1, false, true⟩ 1 (.lockedBy 1) =
      .ok 0 .unlocked :=
  ⟨(recursive_locker_nesting (fun _ => true) 1 2 rfl).2.1,
   (recursive_locker_nesting (fun _ => true) 1 2 rfl).2.2.2.1
     ⟨1, false, false⟩ 2 (by decide),
   (recursive_locker_nesting (fun _ => true) 1 2 rfl).2.2.2.2.2.1⟩

/-- C5: destroying an `IPCMutexLocker` whose owner-died accessor was never
called aborts with the "nobody checked if the previous owner of mutex died"
diagnostic, whatever the mutex state; the accessor itself discharges the
obligation; and once the accessor has been called, destruction unlocks the
mutex normally. -/
theorem ipc_locker_check_obligation (g : IPCGuard) (m : LockState) :
    (g.ownerDiedChecked = false →
        ipcMutexLockerDestruct g m =
          .fatal "nobody checked if the previous owner of mutex died") ∧
    (ipcOwnerDied g).2.ownerDiedChecked = true ∧
    (g.ownerDiedChecked = true →
        ipcMutexLockerDestruct g m = unlock g.self m) ∧
    ipcMutexLockerDestruct ⟨g.self, g.ownerDied, true⟩ (.lockedBy g.self) =
      .ok .unlocked := by
  refine ⟨fun h => by simp [ipcMutexLockerDestruct, h], rfl,
    fun h => by simp [ipcMutexLockerDestruct, h],
    by simp [ipcMutexLockerDestruct, unlock]⟩

/-- Witness for C5: destroying an unchecked guard for holder 1 aborts with
the diagnostic; after the accessor is called, destruction unlocks. -/
theorem ipc_locker_check_obligation_witness :
    ipcMutexLockerDestruct ⟨1, false, false⟩ (.lockedBy 1) =
      .fatal "nobody checked if the previous owner of mutex died" ∧
    ipcMutexLockerDestruct ⟨1, false, true⟩ (.lockedBy 1) = .ok .unlocked :=
  ⟨(ipc_locker_check_obligation ⟨1, false, false⟩ (.lockedBy 1)).1 rfl,
   (ipc_locker_check_obligation ⟨1, false, false⟩ (.lockedBy 1)).2.2.2⟩

/-- C6: `MutexLocker` construction calls `Lock()`; on a clean acquisition
from the unlocked state the guard is in place and its destruction unlocks;
if `Lock()` reports that the previous owner died, construction aborts with
the diagnostic naming the mutex instead of continuing. -/
theorem mutex_locker_contract (alive : Nat → Bool) (self : Nat)
    (m : LockState) :
    (m = .unlocked →
        mutexLockerConstruct alive self m = .ok (.lockedBy self) ∧
        mutexLockerDestruct self (.lockedBy self) = .ok .unlocked) ∧
    (∀ x, m = .lockedBy x → x ≠ self → alive x = false →
        mutexLockerConstruct alive self m =
          .fatal "previous owner of mutex died") := by
  constructor
  · rintro rfl
    exact ⟨rfl, by simp [mutexLockerDestruct, unlock]⟩
  · rintro x rfl hx hax
    have hxs : ¬ x = self := hx
    simp [mutexLockerConstruct, lock, hxs, hax]

/-- Witness for C6: clean construction and destruction for holder 1 on an
unlocked mutex, and the fatal owner-died construction on the mutex
abandoned by dead holder 2. -/
theorem mutex_locker_contract_witness :
    (mutexLockerConstruct (fun n => decide ¬ n = 2) 1 .unlocked =
        .ok (.lockedBy 1) ∧
      mutexLockerDestruct 1 (.lockedBy 1) = .ok .unlocked) ∧
    mutexLockerConstruct (fun n => decide ¬ n = 2) 1 (.lockedBy 2) =
      .fatal "previous owner of mutex died" :=
  ⟨(mutex_locker_contract (fun n => decide ¬ n = 2) 1 .unlocked).1 rfl,
   (mutex_locker_contract (fun n => decide ¬ n = 2) 1 (.lockedBy 2)).2 2 rfl
     (by decide) (by decide)⟩

/-- C7: `Unlock()` by a caller that does not hold the mutex — the mutex is
unlocked (covering both double-unlock after a single lock/unlock pair and a
never-locked mutex) or held by someone else — aborts fatally with the
"multiple unlock" diagnostic rather than returning an error. -/
theorem unlock_not_held_fatal (self : Nat) (m : LockState)
    (h : ∀ x, m = .lockedBy x → x ≠ self) :
    unlock self m = .fatal "multiple unlock" := by
  cases m with
  | unlocked => rfl
  | lockedBy x =>
      have hx : ¬ x = self := h x rfl
      simp [unlock, hx]

/-- Witness for C7: unlocking a mutex in the unlocked state (the state after
`Lock(); Unlock();`, and also the state of a never-locked mutex) aborts. -/
theorem unlock_not_held_fatal_witness :
    unlock 1 .unlocked = .fatal "multiple unlock" :=
  unlock_not_held_fatal 1 .unlocked (by simp)

/-- C8: a second `Lock()` by the thread already holding the mutex aborts
fatally with the "multiple lock" diagnostic instead of deadlocking or
succeeding. -/
theorem lock_self_relock_fatal (alive : Nat → Bool) (self : Nat) :
    lock alive self (.lockedBy self) = .fatal "multiple lock" := by
  simp [lock]

/-- C9: destroying a mutex held by anyone aborts fatally with the
"destroying locked mutex" diagnostic; destroying a fully released mutex is
permitted. -/
theorem destroy_contract (x : Nat) :
    destroy (.lockedBy x) = .fatal "destroying locked mutex" ∧
    destroy .unlocked = .ok .unlocked :=
  ⟨rfl, rfl⟩

/-- C10: `TryLock()` by the live thread currently holding the mutex returns
`kLockFailed` without aborting and without changing the lock state, in
contrast to `Lock()`, for which the same self-reacquisition is fatal. -/
theorem tryLock_self_no_abort (alive : Nat → Bool) (self : Nat)
    (hself : alive self = true) :
    tryLock alive self (.lockedBy self) = (.kLockFailed, .lockedBy self) ∧
    lock alive self (.lockedBy self) = .fatal "multiple lock" := by
  exact ⟨by simp [tryLock, hself], by simp [lock]⟩

/-- Witness for C10: holder 1, alive, try-locking its own mutex. -/
theorem tryLock_self_no_abort_witness :
    tryLock (fun _ => true) 1 (.lockedBy 1) = (.kLockFailed, .lockedBy 1) ∧
    lock (fun _ => true) 1 (.lockedBy 1) = .fatal "multiple lock" :=
  tryLock_self_no_abort (fun _ => true) 1 rfl

end AosMutex
